import Mathlib

/-!
Verification of the rustpbx media core: the DTMF extractor
(`src/media/dtmf.rs`) and the frame processor chain
(`src/media/processor.rs`), shallowly embedded in Lean 4.

Bytes of an RTP payload are modelled as `Nat` (hypotheses `< 256` are
added where u8 range matters).  The detector's atomic scalars become a
plain state record threaded explicitly: `detect_rtp` returns the
reported digit (if any) together with the successor state.
-/

namespace RustPbx

/-- Highest defined DTMF event code (`DTMF_EVENT_D` in `dtmf.rs`). -/
def DTMF_EVENT_D : Nat := 15

/-- State of `DtmfDetector`: the two atomic scalars `last_event : AtomicU8`
and `last_duration : AtomicU64` of `dtmf.rs`, as plain naturals. -/
structure DtmfDetector where
  last_event : Nat
  last_duration : Nat
deriving Repr, DecidableEq

/-- Mirrors `DtmfDetector::new`: both scalars start at zero. -/
def DtmfDetector.new : DtmfDetector :=
  { last_event := 0, last_duration := 0 }

/-- Parsed view of a telephone-event payload (`struct DtmfPayload`). -/
structure DtmfPayload where
  event : Nat
  is_end : Bool
  reserved : Nat
  volume : Nat
  duration : Nat
deriving Repr, DecidableEq

/-- Mirrors `DtmfPayload::parse`: requires at least 4 bytes and an event
code at most 15; byte 1 bit 7 is the end flag, bits 6–0 are reserved;
byte 2 bits 5–0 are the volume; byte 3 alone is read as the duration. -/
def DtmfPayload.parse (payload : List Nat) : Option DtmfPayload :=
  if payload.length < 4 then
    none
  else
    let event := payload.getD 0 0
    if event > DTMF_EVENT_D then
      none
    else
      let b1 := payload.getD 1 0
      let is_end := (b1 &&& 128) != 0
      let reserved := b1 &&& 127
      let volume := payload.getD 2 0 &&& 63
      let duration := if payload.length ≥ 4 then payload.getD 3 0 else 0
      some { event, is_end, reserved, volume, duration }

/-- Textual symbol of a DTMF event code, the `match` at the end of
`DtmfDetector::detect_rtp`: 0–9 map to "0"–"9", 10 to "*", 11 to "#",
12–15 to "A"–"D", anything else to no symbol. -/
def dtmfEventSymbol (event : Nat) : Option String :=
  match event with
  | 0 => some "0"
  | 1 => some "1"
  | 2 => some "2"
  | 3 => some "3"
  | 4 => some "4"
  | 5 => some "5"
  | 6 => some "6"
  | 7 => some "7"
  | 8 => some "8"
  | 9 => some "9"
  | 10 => some "*"
  | 11 => some "#"
  | 12 => some "A"
  | 13 => some "B"
  | 14 => some "C"
  | 15 => some "D"
  | _ => none

/-- Mirrors `DtmfDetector::detect_rtp`.  Returns the reported digit (or
`none`) paired with the detector state after the call.  The guards
appear in source order: payload length, payload-type range 96–127,
parse, end flag, duplicate suppression; on acceptance the two scalars
are stored before the symbol lookup (whose failure arm is unreachable
because `parse` bounds the event, but it is embedded as written). -/
def DtmfDetector.detect_rtp (d : DtmfDetector) (payload_type : Nat)
    (payload : List Nat) : Option String × DtmfDetector :=
  if payload.length < 4 then
    (none, d)
  else if payload_type < 96 ∨ payload_type > 127 then
    (none, d)
  else
    match DtmfPayload.parse payload with
    | none => (none, d)
    | some p =>
      if p.is_end = false then
        (none, d)
      else
        let current_duration := p.duration
        if p.event = d.last_event ∧
            (current_duration ≤ d.last_duration ∨
              current_duration - d.last_duration < 100) then
          (none, d)
        else
          let d' : DtmfDetector :=
            { last_event := p.event, last_duration := current_duration }
          match dtmfEventSymbol p.event with
          | some s => (some s, d')
          | none => (none, d')

/-- Duration field of a telephone-event payload as RFC 4733 defines it:
the 16-bit big-endian quantity in bytes 2 and 3.  Stated from the spec,
for comparison with what `DtmfPayload.parse` actually reads. -/
def rfc4733Duration (payload : List Nat) : Nat :=
  payload.getD 2 0 * 256 + payload.getD 3 0

/-- Characterisation of the acceptance path of `detect_rtp` (a proof
device, not a source function): all five guards pass. -/
def detectAccepts (d : DtmfDetector) (payload_type : Nat)
    (payload : List Nat) : Prop :=
  4 ≤ payload.length ∧ 96 ≤ payload_type ∧ payload_type ≤ 127 ∧
  payload.getD 0 0 ≤ 15 ∧ payload.getD 1 0 &&& 128 ≠ 0 ∧
  ¬(payload.getD 0 0 = d.last_event ∧
    (payload.getD 3 0 ≤ d.last_duration ∨
      payload.getD 3 0 - d.last_duration < 100))

instance (d : DtmfDetector) (payload_type : Nat) (payload : List Nat) :
    Decidable (detectAccepts d payload_type payload) := by
  unfold detectAccepts
  infer_instance

/-- Samples variant of an audio frame.  Modelled from the spec: the
`Samples` enum lives at the crate root, outside the given sources; §3
fixes its three variants (`PCM` with 16-bit samples, `RTP` with a
payload-type tag and raw bytes, `Empty`). -/
inductive Samples where
  | PCM (samples : List Int)
  | RTP (payload_type : Nat) (payload : List Nat)
  | Empty
deriving Repr, DecidableEq

/-- Modelled from the spec: the `AudioFrame` struct at the crate root
(§3): `track_id`, `samples`, `timestamp`, `sample_rate`. -/
structure AudioFrame where
  track_id : String
  samples : Samples
  timestamp : Nat
  sample_rate : Nat
deriving Repr, DecidableEq

/-- Mirrors `impl Default for AudioFrame` in `processor.rs`: empty track
id, `Empty` samples, timestamp 0, 16000 Hz. -/
def AudioFrame.default : AudioFrame :=
  { track_id := "", samples := Samples.Empty, timestamp := 0,
    sample_rate := 16000 }

/-- Mirrors `Samples::is_empty` in `processor.rs`. -/
def Samples.is_empty : Samples → Bool
  | .PCM samples => samples.isEmpty
  | .RTP _ payload => payload.isEmpty
  | .Empty => true

/-- Modelled from the spec: `TrackCodec::is_audio`
(`src/media/track/track_codec.rs` is not among the given sources).  A
payload type is recognised as audio iff it names one of the three known
codecs of the closed `CodecType` enumeration (§3) — PCMU, PCMA, G722,
carried under their standard static RTP payload types 0, 8 and 9; DTMF
telephone-event and every other tag are not audio. -/
def TrackCodec.is_audio (payload_type : Nat) : Bool :=
  payload_type == 0 || payload_type == 8 || payload_type == 9

/-- Modelled from the spec: `TrackCodec::decode`
(`src/media/track/track_codec.rs` is not among the given sources).  The
spec fixes only that decoding yields a sequence of 16-bit PCM samples
(§4.1), the values being codec-defined; the claims under verification
never constrain them, so the model returns silence of the payload's
length. -/
def TrackCodec.decode (payload_type : Nat) (payload : List Nat)
    (sample_rate : Nat) : List Int :=
  List.replicate payload.length 0

/-- A processor (the `Processor` trait object): it mutates the frame in
place and may fail; the mutated frame is kept even on failure, mirroring
Rust's `&mut AudioFrame` plus `Result<()>` (errors modelled as strings). -/
def Processor := AudioFrame → AudioFrame × Option String

/-- Mirrors `ProcessorChain` (`processor.rs`): the ordered processor
list, the shared codec instance (kept as its decode function), the
chain's fixed sample rate and the `force_decode` flag.  The `Arc<Mutex>`
wrappers are concurrency plumbing with no sequential content. -/
structure ProcessorChain where
  processors : List Processor
  codec : Nat → List Nat → Nat → List Int
  sample_rate : Nat
  force_decode : Bool

/-- Mirrors `ProcessorChain::new`: empty processor list, a fresh
`TrackCodec`, the given sample rate, and `force_decode` set to true. -/
def ProcessorChain.new (sample_rate : Nat) : ProcessorChain :=
  { processors := [], codec := TrackCodec.decode, sample_rate,
    force_decode := true }

/-- Mirrors `ProcessorChain::insert_processor`: places the processor at
the head of the chain. -/
def ProcessorChain.insert_processor (c : ProcessorChain) (p : Processor) :
    ProcessorChain :=
  { c with processors := p :: c.processors }

/-- Mirrors `ProcessorChain::append_processor`: places the processor at
the tail of the chain. -/
def ProcessorChain.append_processor (c : ProcessorChain) (p : Processor) :
    ProcessorChain :=
  { c with processors := c.processors ++ [p] }

/-- The decode-on-demand step of `ProcessorChain::process_frame` (the
`if let Samples::RTP` block): an RTP frame whose payload type is
recognised as audio is decoded at the chain's rate and becomes PCM with
the chain's sample rate; every other frame passes through untouched. -/
def ProcessorChain.decodeStep (c : ProcessorChain) (frame : AudioFrame) :
    AudioFrame :=
  match frame.samples with
  | .RTP payload_type payload =>
    if TrackCodec.is_audio payload_type then
      { frame with
          samples := .PCM (c.codec payload_type payload c.sample_rate),
          sample_rate := c.sample_rate }
    else frame
  | _ => frame

/-- The per-processor loop of `ProcessorChain::process_frame`: run each
processor in order on the same frame; the first failure stops the loop
and is returned, with the frame as mutated so far. -/
def runProcessors : List Processor → AudioFrame → AudioFrame × Option String
  | [], frame => (frame, none)
  | p :: ps, frame =>
    match p frame with
    | (frame', none) => runProcessors ps frame'
    | (frame', some e) => (frame', some e)

/-- Mirrors `ProcessorChain::process_frame`: fast-exit when
`force_decode` is false and no processor is registered, otherwise the
decode step followed by the processor loop. -/
def ProcessorChain.process_frame (c : ProcessorChain) (frame : AudioFrame) :
    AudioFrame × Option String :=
  if c.force_decode = false ∧ c.processors.isEmpty then
    (frame, none)
  else
    runProcessors c.processors (c.decodeStep frame)

/-- Fixture processor for witnesses: bumps the timestamp and succeeds. -/
def procStamp : Processor :=
  fun f => ({ f with timestamp := f.timestamp + 1 }, none)

/-- Fixture processor for witnesses: renames the track, then fails. -/
def procFailing : Processor :=
  fun f => ({ f with track_id := "failed" }, some "processor error")

/-- Fixture processor for witnesses: blanks the samples and succeeds. -/
def procMute : Processor :=
  fun f => ({ f with samples := Samples.PCM [] }, none)

/-! ## Helper lemmas -/

/-- Every event code at most 15 has a textual symbol. -/
theorem dtmfEventSymbol_isSome (e : Nat) (h : e ≤ 15) :
    ∃ s, dtmfEventSymbol e = some s := by
  interval_cases e <;> exact ⟨_, rfl⟩

/-- Full characterisation of `detect_rtp`: when all five guards pass the
call reports the event's symbol and stores the event and duration;
otherwise it reports nothing and leaves the state untouched. -/
theorem detect_rtp_eq (d : DtmfDetector) (pt : Nat) (payload : List Nat) :
    d.detect_rtp pt payload =
      if detectAccepts d pt payload then
        (dtmfEventSymbol (payload.getD 0 0),
          { last_event := payload.getD 0 0,
            last_duration := payload.getD 3 0 })
      else (none, d) := by
  unfold DtmfDetector.detect_rtp detectAccepts
  by_cases h4 : payload.length < 4
  · rw [if_pos h4, if_neg (fun h => absurd h.1 (by omega))]
  · rw [if_neg h4]
    by_cases hpt : pt < 96 ∨ pt > 127
    · rw [if_pos hpt,
        if_neg (fun h => by rcases h with ⟨-, h96, h127, -⟩; omega)]
    · rw [if_neg hpt]
      by_cases he : payload.getD 0 0 > 15
      · have hparse : DtmfPayload.parse payload = none := by
          unfold DtmfPayload.parse
          rw [if_neg h4, if_pos (by unfold DTMF_EVENT_D; omega)]
        rw [hparse,
          if_neg (fun h => by rcases h with ⟨-, -, -, h15, -⟩; omega)]
      · have hparse : DtmfPayload.parse payload =
            some { event := payload.getD 0 0,
                   is_end := (payload.getD 1 0 &&& 128) != 0,
                   reserved := payload.getD 1 0 &&& 127,
                   volume := payload.getD 2 0 &&& 63,
                   duration := payload.getD 3 0 } := by
          unfold DtmfPayload.parse
          rw [if_neg h4, if_neg (by unfold DTMF_EVENT_D; omega),
            if_pos (by omega)]
        rw [hparse]
        simp only
        by_cases hend : payload.getD 1 0 &&& 128 = 0
        · rw [if_pos (by simp only [bne_eq_false_iff_eq]; exact hend),
            if_neg (fun h => by
              rcases h with ⟨-, -, -, -, hb, -⟩; exact hb hend)]
        · rw [if_neg (by simp only [bne_eq_false_iff_eq]; exact hend)]
          by_cases hdup : payload.getD 0 0 = d.last_event ∧
              (payload.getD 3 0 ≤ d.last_duration ∨
                payload.getD 3 0 - d.last_duration < 100)
          · rw [if_pos hdup, if_neg (fun h => h.2.2.2.2.2 hdup)]
          · rw [if_neg hdup,
              if_pos ⟨by omega, by omega, by omega, by omega, hend, hdup⟩]
            cases hsym : dtmfEventSymbol (payload.getD 0 0) <;> rfl

/-- Running a processor list that succeeds, extended by more processors,
continues with the rest from the frame the first part produced. -/
theorem runProcessors_append (ps₁ ps₂ : List Processor) (f f₁ : AudioFrame)
    (h : runProcessors ps₁ f = (f₁, none)) :
    runProcessors (ps₁ ++ ps₂) f = runProcessors ps₂ f₁ := by
  induction ps₁ generalizing f with
  | nil =>
    simp only [runProcessors] at h
    injection h with h1 h2
    subst h1
    rfl
  | cons p ps ih =>
    simp only [List.cons_append, runProcessors] at h ⊢
    rcases hpf : p f with ⟨f', e⟩
    rw [hpf] at h
    cases e with
    | none => exact ih f' h
    | some err =>
      injection h with h1 h2
      exact Option.noConfusion h2

/-! ## Claim theorems -/

/-- C1: DTMF duplicate suppression.  On a valid end-of-event payload
(length ≥ 4, payload type within 96–127, event code at most 15, end flag
set) `detect_rtp` reports nothing iff the event equals the last reported
event and the duration is at most the last reported one or exceeds it by
less than 100; consequently, on a fresh detector, `[5, 0x80, 10, 100]`
with payload type 101 yields "5", the repeat with duration 150 yields
nothing, duration 210 yields "5" again, and event 6 with duration 100
then yields "6". -/
theorem dtmf_duplicate_suppression (d : DtmfDetector) (payload_type : Nat)
    (payload : List Nat)
    (hlen : 4 ≤ payload.length)
    (hlo : 96 ≤ payload_type) (hhi : payload_type ≤ 127)
    (hev : payload.getD 0 0 ≤ 15)
    (hend : payload.getD 1 0 &&& 128 ≠ 0) :
    ((d.detect_rtp payload_type payload).1 = none ↔
      payload.getD 0 0 = d.last_event ∧
        (payload.getD 3 0 ≤ d.last_duration ∨
          payload.getD 3 0 - d.last_duration < 100)) ∧
    (DtmfDetector.new.detect_rtp 101 [5, 128, 10, 100]).1 = some "5" ∧
    ((DtmfDetector.new.detect_rtp 101 [5, 128, 10, 100]).2.detect_rtp 101
        [5, 128, 10, 150]).1 = none ∧
    (((DtmfDetector.new.detect_rtp 101 [5, 128, 10, 100]).2.detect_rtp 101
        [5, 128, 10, 150]).2.detect_rtp 101 [5, 128, 10, 210]).1
      = some "5" ∧
    ((((DtmfDetector.new.detect_rtp 101 [5, 128, 10, 100]).2.detect_rtp 101
        [5, 128, 10, 150]).2.detect_rtp 101 [5, 128, 10, 210]).2.detect_rtp
        101 [6, 128, 10, 100]).1 = some "6" := by
  refine ⟨?_, by decide, by decide, by decide, by decide⟩
  rw [detect_rtp_eq]
  by_cases hacc : detectAccepts d payload_type payload
  · rw [if_pos hacc]
    obtain ⟨s, hs⟩ := dtmfEventSymbol_isSome _ hev
    simp only [hs]
    constructor
    · intro h; cases h
    · intro hdup; exact (hacc.2.2.2.2.2 hdup).elim
  · rw [if_neg hacc]
    constructor
    · intro _
      by_contra hdup
      exact hacc ⟨hlen, hlo, hhi, hev, hend, hdup⟩
    · intro _; rfl

/-- Witness for C1 at a concrete input: digit 5 is reported on a fresh
detector. -/
theorem dtmf_duplicate_suppression_witness :
    (DtmfDetector.new.detect_rtp 101 [5, 128, 10, 100]).1 = some "5" :=
  (dtmf_duplicate_suppression DtmfDetector.new 101 [5, 128, 10, 100]
    (by decide) (by decide) (by decide) (by decide) (by decide)).2.1

/-- C4: DTMF rejection preconditions.  `detect_rtp` reports nothing
(returning no event, never an error — its result type carries no error
case) whenever the payload is shorter than 4 bytes, the payload type
lies outside 96–127, the event code exceeds 15, or the end-of-event flag
is clear; in particular payload type 0 and any 3-byte payload always
yield no report. -/
theorem dtmf_rejection_preconditions (d : DtmfDetector) (payload_type : Nat)
    (payload : List Nat)
    (h : payload.length < 4 ∨ payload_type < 96 ∨ payload_type > 127 ∨
      payload.getD 0 0 > 15 ∨ payload.getD 1 0 &&& 128 = 0) :
    (d.detect_rtp payload_type payload).1 = none ∧
    (d.detect_rtp 0 payload).1 = none ∧
    ∀ b0 b1 b2 : Nat, (d.detect_rtp payload_type [b0, b1, b2]).1 = none := by
  refine ⟨?_, ?_, ?_⟩
  · rw [detect_rtp_eq, if_neg (fun hacc => by
      obtain ⟨a1, a2, a3, a4, a5, -⟩ := hacc
      rcases h with h | h | h | h | h
      · omega
      · omega
      · omega
      · omega
      · exact a5 h)]
  · rw [detect_rtp_eq, if_neg (fun hacc => by have := hacc.2.1; omega)]
  · intro b0 b1 b2
    rw [detect_rtp_eq, if_neg (fun hacc => by simpa using hacc.1)]

/-- Witness for C4 at a concrete input: payload type 0 yields no report
even on an otherwise valid payload. -/
theorem dtmf_rejection_preconditions_witness :
    (DtmfDetector.new.detect_rtp 0 [5, 128, 10, 100]).1 = none :=
  (dtmf_rejection_preconditions DtmfDetector.new 0 [5, 128, 10, 100]
    (Or.inr (Or.inl (by decide)))).1

/-- C6: DTMF acceptance semantics.  Whenever `detect_rtp` reports an
event, the new state holds the parsed event code (byte 0) and parsed
duration (byte 3), and the reported string is the event's symbol under
the fixed mapping 0–9 to "0"–"9", 10 to "*", 11 to "#", 12–15 to
"A"–"D". -/
theorem dtmf_acceptance_semantics (d : DtmfDetector) (payload_type : Nat)
    (payload : List Nat) (s : String)
    (h : (d.detect_rtp payload_type payload).1 = some s) :
    (d.detect_rtp payload_type payload).2.last_event = payload.getD 0 0 ∧
    (d.detect_rtp payload_type payload).2.last_duration = payload.getD 3 0 ∧
    dtmfEventSymbol (payload.getD 0 0) = some s ∧
    (dtmfEventSymbol 0 = some "0" ∧ dtmfEventSymbol 1 = some "1" ∧
      dtmfEventSymbol 2 = some "2" ∧ dtmfEventSymbol 3 = some "3" ∧
      dtmfEventSymbol 4 = some "4" ∧ dtmfEventSymbol 5 = some "5" ∧
      dtmfEventSymbol 6 = some "6" ∧ dtmfEventSymbol 7 = some "7" ∧
      dtmfEventSymbol 8 = some "8" ∧ dtmfEventSymbol 9 = some "9" ∧
      dtmfEventSymbol 10 = some "*" ∧ dtmfEventSymbol 11 = some "#" ∧
      dtmfEventSymbol 12 = some "A" ∧ dtmfEventSymbol 13 = some "B" ∧
      dtmfEventSymbol 14 = some "C" ∧ dtmfEventSymbol 15 = some "D") := by
  rw [detect_rtp_eq] at h ⊢
  by_cases hacc : detectAccepts d payload_type payload
  · rw [if_pos hacc] at h ⊢
    exact ⟨rfl, rfl, h, by decide⟩
  · rw [if_neg hacc] at h
    cases h

/-- Witness for C6 at a concrete input: after accepting digit 7 the
state holds event code 7. -/
theorem dtmf_acceptance_semantics_witness :
    (DtmfDetector.new.detect_rtp 101 [7, 128, 10, 100]).2.last_event = 7 :=
  (dtmf_acceptance_semantics DtmfDetector.new 101 [7, 128, 10, 100] "7"
    (by decide)).1

/-- C8: DTMF state unchanged on rejection.  Whenever `detect_rtp`
reports nothing — for any reason — the detector state is left exactly as
it was. -/
theorem dtmf_state_unchanged_on_rejection (d : DtmfDetector)
    (payload_type : Nat) (payload : List Nat)
    (h : (d.detect_rtp payload_type payload).1 = none) :
    (d.detect_rtp payload_type payload).2 = d := by
  rw [detect_rtp_eq] at h ⊢
  by_cases hacc : detectAccepts d payload_type payload
  · rw [if_pos hacc] at h
    obtain ⟨s, hs⟩ := dtmfEventSymbol_isSome _ hacc.2.2.2.1
    rw [hs] at h
    cases h
  · rw [if_neg hacc]

/-- Witness for C8 at a concrete input: a duplicate-suppressed repeat
leaves the state untouched. -/
theorem dtmf_state_unchanged_on_rejection_witness :
    ((⟨5, 100⟩ : DtmfDetector).detect_rtp 101 [5, 128, 10, 150]).2
      = (⟨5, 100⟩ : DtmfDetector) :=
  dtmf_state_unchanged_on_rejection ⟨5, 100⟩ 101 [5, 128, 10, 150]
    (by decide)

/-- C7: DTMF duration truncation.  `DtmfPayload::parse` reads the
duration from byte 3 alone, so for byte values below 256 the parsed
duration equals the RFC 4733 16-bit duration (bytes 2–3, big-endian)
reduced modulo 256. -/
theorem dtmf_duration_truncation (payload : List Nat) (p : DtmfPayload)
    (hp : DtmfPayload.parse payload = some p)
    (hb : payload.getD 3 0 < 256) :
    p.duration = payload.getD 3 0 ∧
    p.duration = rfc4733Duration payload % 256 := by
  unfold DtmfPayload.parse at hp
  by_cases h4 : payload.length < 4
  · rw [if_pos h4] at hp; cases hp
  · rw [if_neg h4] at hp
    by_cases he : payload.getD 0 0 > DTMF_EVENT_D
    · rw [if_pos he] at hp; cases hp
    · rw [if_neg he, if_pos (by omega)] at hp
      injection hp with hp
      subst hp
      refine ⟨rfl, ?_⟩
      show payload.getD 3 0 = rfc4733Duration payload % 256
      unfold rfc4733Duration
      omega

/-- Witness for C7 at a concrete input: the parse of `[1, 128, 10, 160]`
carries duration 160, the RFC duration 2720 reduced modulo 256. -/
theorem dtmf_duration_truncation_witness :
    ({ event := 1, is_end := true, reserved := 0, volume := 10,
        duration := 160 } : DtmfPayload).duration
      = rfc4733Duration [1, 128, 10, 160] % 256 :=
  (dtmf_duration_truncation [1, 128, 10, 160]
    { event := 1, is_end := true, reserved := 0, volume := 10,
      duration := 160 } (by decide) (by decide)).2

/-- C9: fresh-detector digit-zero edge case.  `DtmfDetector::new` starts
with `last_event = 0` and `last_duration = 0` — the event code of digit
"0" — so the first-ever valid end-of-event payload for digit "0" with
duration below 100 is suppressed as a duplicate and never reported. -/
theorem fresh_detector_digit_zero_suppressed (payload_type : Nat)
    (payload : List Nat)
    (hlo : 96 ≤ payload_type) (hhi : payload_type ≤ 127)
    (hlen : 4 ≤ payload.length)
    (hev : payload.getD 0 0 = 0)
    (hend : payload.getD 1 0 &&& 128 ≠ 0)
    (hdur : payload.getD 3 0 < 100) :
    DtmfDetector.new.last_event = 0 ∧
    DtmfDetector.new.last_duration = 0 ∧
    dtmfEventSymbol 0 = some "0" ∧
    (DtmfDetector.new.detect_rtp payload_type payload).1 = none := by
  refine ⟨rfl, rfl, rfl, ?_⟩
  rw [detect_rtp_eq,
    if_neg (fun hacc => hacc.2.2.2.2.2 ⟨hev, Or.inr hdur⟩)]

/-- Witness for C9 at a concrete input: the first digit-0 end packet
with duration 50 is never reported on a fresh detector. -/
theorem fresh_detector_digit_zero_suppressed_witness :
    (DtmfDetector.new.detect_rtp 101 [0, 128, 10, 50]).1 = none :=
  (fresh_detector_digit_zero_suppressed 101 [0, 128, 10, 50] (by decide)
    (by decide) (by decide) (by decide) (by decide) (by decide)).2.2.2

/-- C3: chain fast-exit.  With `force_decode` false and zero processors,
`process_frame` returns success and leaves the frame entirely unchanged
(track id, samples, timestamp and sample rate all identical). -/
theorem chain_fast_exit (c : ProcessorChain) (frame : AudioFrame)
    (hfd : c.force_decode = false) (hp : c.processors = []) :
    c.process_frame frame = (frame, none) ∧
    (c.process_frame frame).1.track_id = frame.track_id ∧
    (c.process_frame frame).1.samples = frame.samples ∧
    (c.process_frame frame).1.timestamp = frame.timestamp ∧
    (c.process_frame frame).1.sample_rate = frame.sample_rate := by
  have h : c.process_frame frame = (frame, none) := by
    unfold ProcessorChain.process_frame
    rw [if_pos ⟨hfd, by simp [hp]⟩]
  exact ⟨h, by rw [h], by rw [h], by rw [h], by rw [h]⟩

/-- Witness for C3 at a concrete input: an idle chain passes the default
frame through untouched. -/
theorem chain_fast_exit_witness :
    ProcessorChain.process_frame
        { processors := [], codec := TrackCodec.decode, sample_rate := 8000,
          force_decode := false } AudioFrame.default
      = (AudioFrame.default, none) :=
  (chain_fast_exit
    { processors := [], codec := TrackCodec.decode, sample_rate := 8000,
      force_decode := false } AudioFrame.default rfl rfl).1

/-- C5: processor failure semantics.  Processors run in chain order on
the same frame; when one fails, the remaining processors are not run
(the result does not depend on them), the failure is propagated, and the
frame keeps every mutation made up to and including the failing
processor (no rollback). -/
theorem processor_failure_semantics (c : ProcessorChain)
    (frame f₁ f₂ : AudioFrame) (ps₁ ps₂ : List Processor) (p : Processor)
    (e : String)
    (hps : c.processors = ps₁ ++ p :: ps₂)
    (h1 : runProcessors ps₁ (c.decodeStep frame) = (f₁, none))
    (h2 : p f₁ = (f₂, some e)) :
    c.process_frame frame = (f₂, some e) := by
  unfold ProcessorChain.process_frame
  rw [if_neg (fun hcon => by rw [hps] at hcon; simp at hcon)]
  rw [hps, runProcessors_append _ _ _ _ h1]
  simp only [runProcessors]
  rw [h2]

/-- Witness for C5 at a concrete input: the first processor's timestamp
bump survives the second processor's failure, and the third processor
never runs. -/
theorem processor_failure_semantics_witness :
    ProcessorChain.process_frame
        { processors := [procStamp, procFailing, procMute],
          codec := TrackCodec.decode, sample_rate := 8000,
          force_decode := true } AudioFrame.default
      = ({ track_id := "failed", samples := Samples.Empty, timestamp := 1,
            sample_rate := 16000 }, some "processor error") :=
  processor_failure_semantics
    { processors := [procStamp, procFailing, procMute],
      codec := TrackCodec.decode, sample_rate := 8000, force_decode := true }
    AudioFrame.default
    { track_id := "", samples := Samples.Empty, timestamp := 1,
      sample_rate := 16000 }
    { track_id := "failed", samples := Samples.Empty, timestamp := 1,
      sample_rate := 16000 }
    [procStamp] [procMute] procFailing "processor error" rfl rfl rfl

/-- C2: chain decode gating.  When the chain has a processor or
`force_decode` is set, `process_frame` is the processor loop applied to
the decode step's output; at the decode step an RTP frame with a
recognised audio payload type has its samples replaced by the decoded
PCM at the chain's configured rate and its sample rate set to that rate,
while an RTP frame with an unrecognised payload type passes the decode
step untouched. -/
theorem chain_decode_gating (c : ProcessorChain) (frame : AudioFrame)
    (payload_type : Nat) (payload : List Nat)
    (hgate : c.force_decode = true ∨ c.processors ≠ [])
    (hrtp : frame.samples = Samples.RTP payload_type payload) :
    c.process_frame frame = runProcessors c.processors (c.decodeStep frame) ∧
    (c.processors = [] → c.process_frame frame = (c.decodeStep frame, none)) ∧
    (TrackCodec.is_audio payload_type = true →
      (c.decodeStep frame).samples
          = Samples.PCM (c.codec payload_type payload c.sample_rate) ∧
      (c.decodeStep frame).sample_rate = c.sample_rate) ∧
    (TrackCodec.is_audio payload_type = false → c.decodeStep frame = frame) := by
  have hmain : c.process_frame frame
      = runProcessors c.processors (c.decodeStep frame) := by
    unfold ProcessorChain.process_frame
    rw [if_neg (fun hcon => by
      rcases hgate with hg | hg
      · rw [hg] at hcon; cases hcon.1
      · exact hg (List.isEmpty_iff.mp hcon.2))]
  refine ⟨hmain, ?_, ?_, ?_⟩
  · intro hnil
    rw [hmain, hnil]
    rfl
  · intro haudio
    have hdec : c.decodeStep frame
        = { frame with
              samples := Samples.PCM
                (c.codec payload_type payload c.sample_rate),
              sample_rate := c.sample_rate } := by
      simp only [ProcessorChain.decodeStep, hrtp, haudio, if_true]
    rw [hdec]
    exact ⟨rfl, rfl⟩
  · intro haudio
    simp [ProcessorChain.decodeStep, hrtp, haudio]

/-- Witness for C2 at a concrete input: a PCMU (payload type 0) RTP
frame becomes PCM at the decode step of a fresh 16000 Hz chain. -/
theorem chain_decode_gating_witness :
    ((ProcessorChain.new 16000).decodeStep
        { track_id := "t", samples := Samples.RTP 0 [1, 2], timestamp := 3,
          sample_rate := 8000 }).samples = Samples.PCM [0, 0] :=
  ((chain_decode_gating (ProcessorChain.new 16000)
    { track_id := "t", samples := Samples.RTP 0 [1, 2], timestamp := 3,
      sample_rate := 8000 } 0 [1, 2] (Or.inl rfl) rfl).2.2.1 rfl).1

/-- C10: default `force_decode`.  `ProcessorChain::new` sets
`force_decode` to true with an empty processor list, so a fresh chain
never takes the fast exit: `process_frame` decodes a recognised RTP
audio frame to PCM even with zero processors registered. -/
theorem default_force_decode (sample_rate : Nat) (frame : AudioFrame)
    (payload_type : Nat) (payload : List Nat)
    (hrtp : frame.samples = Samples.RTP payload_type payload)
    (haudio : TrackCodec.is_audio payload_type = true) :
    (ProcessorChain.new sample_rate).force_decode = true ∧
    (ProcessorChain.new sample_rate).processors = [] ∧
    (ProcessorChain.new sample_rate).process_frame frame
      = ({ frame with
            samples := Samples.PCM
              (TrackCodec.decode payload_type payload sample_rate),
            sample_rate := sample_rate }, none) := by
  refine ⟨rfl, rfl, ?_⟩
  unfold ProcessorChain.process_frame
  rw [if_neg (fun hcon => by simp [ProcessorChain.new] at hcon)]
  have hdec : (ProcessorChain.new sample_rate).decodeStep frame
      = { frame with
            samples := Samples.PCM
              (TrackCodec.decode payload_type payload sample_rate),
            sample_rate := sample_rate } := by
    simp only [ProcessorChain.decodeStep, hrtp, haudio, if_true]
    rfl
  rw [show (ProcessorChain.new sample_rate).processors = [] from rfl, hdec]
  rfl

/-- Witness for C10 at a concrete input: a fresh 8000 Hz chain decodes a
PCMA (payload type 8) frame with no processors registered. -/
theorem default_force_decode_witness :
    (ProcessorChain.new 8000).process_frame
        { track_id := "t", samples := Samples.RTP 8 [7], timestamp := 2,
          sample_rate := 44100 }
      = ({ track_id := "t", samples := Samples.PCM [0], timestamp := 2,
            sample_rate := 8000 }, none) :=
  (default_force_decode 8000
    { track_id := "t", samples := Samples.RTP 8 [7], timestamp := 2,
      sample_rate := 44100 } 8 [7] rfl rfl).2.2

end RustPbx
